import Mathlib

/-!
Verification of the card-fraud-rule-engine load-testing script
(`load-testing/locustfile.py`) against its specification.

The Python script is shallowly embedded: randomness sources (`random.choice`,
`random.uniform`, `random.randint`, `uuid`) become explicit entropy
parameters, environment variables become explicit `Option String` inputs,
HTTP I/O becomes an explicit description of the network's behaviour, and the
module-level token cache becomes explicit state passing.  Machine floats are
modelled by rationals; `round(x, 2)` becomes rounding to the nearest
multiple of `1/100`.
-/

set_option maxRecDepth 4000

/-! ## Configuration (locustfile.py lines 44-51) -/

/-- Python's `str.lower()`, for the ASCII strings this script compares
(environment values against `"true"`, `"1"`, `"yes"`). -/
def lowerAscii (s : String) : String :=
  String.mk (s.data.map Char.toLower)

/-- Line 44: `NO_AUTH = os.environ.get("NO_AUTH", "false").lower() in ("true", "1", "yes")`
(line 44), as a function of the raw environment value (`none` = unset). -/
def NO_AUTH_of_env (v : Option String) : Bool :=
  decide (lowerAscii (v.getD "false") ∈ (["true", "1", "yes"] : List String))

/-! ## Response classification (`CardFraudUser._handle_response`, lines 218-235) -/

/-- The decoded JSON body of an evaluation response, restricted to the two
fields `_handle_response` reads.  `none` in a field means the key is absent
(Python `data.get` returns the default). -/
structure EvalBody where
  engine_mode : Option String
  engine_error_code : Option String
deriving DecidableEq

/-- Outcome of classifying one HTTP response: `response.success()` or
`response.failure(msg)`. -/
inductive ClassResult where
  | success : ClassResult
  | failure (msg : String) : ClassResult
deriving DecidableEq

/-- Embedding of `CardFraudUser._handle_response` (lines 218-235).  `status` is
`response.status_code`; `body` is the result of `response.json()`
(`none` = `json.JSONDecodeError`); `text` is `response.text`. -/
def handle_response (status : Nat) (body : Option EvalBody) (text : String) :
    ClassResult :=
  if status = 200 then
    match body with
    | some data =>
      let mode := data.engine_mode.getD "NORMAL"
      if mode = "FAIL_OPEN" ∨ mode = "DEGRADED" then
        .failure (mode ++ ": " ++ data.engine_error_code.getD "UNKNOWN")
      else
        .success
    | none => .failure "Invalid JSON response"
  else if status = 401 then
    .failure "Auth failed - check JWT_TOKEN or use NO_AUTH=true"
  else if status = 403 then
    .failure "Forbidden - check scopes"
  else
    .failure ("Status " ++ toString status ++ ": " ++ (text.take 100))

/-! ## Credential provider (`_get_shared_token`, lines 66-112) -/

/-- The Auth0-related configuration read at module import (lines 44-50).
An environment variable that is unset is read as `""` (the `os.environ.get`
default), so "missing" and "empty" coincide. -/
structure Auth0Config where
  NO_AUTH : Bool
  AUTH0_DOMAIN : String
  AUTH0_CLIENT_ID : String
  AUTH0_CLIENT_SECRET : String
  AUTH0_AUDIENCE : String
deriving DecidableEq

/-- The decoded JSON body of an identity-endpoint response, restricted to the
fields `_get_shared_token` reads. -/
structure TokenBody where
  access_token : Option String
  expires_in : Option Nat
deriving DecidableEq

/-- Behaviour of the network during one `urllib.request.urlopen` call to the
identity endpoint: a 2xx response (whose body decodes to `some body`, or is
not decodable JSON), an `HTTPError`, or any other exception. -/
inductive TokenNet where
  | ok (body : Option TokenBody)
  | httpError (code : Nat) (body : String)
  | exc (msg : String)
deriving DecidableEq

/-- What one call to `_get_shared_token` does to the caller: return a value,
or terminate the process via `sys.exit`. -/
inductive TokenOutcome where
  | value (t : Option String)
  | exits (code : Nat)
deriving DecidableEq

/-- Observable effect of one call to `_get_shared_token`: its outcome, the
module-level `_cached_token` after the call, how many network requests to the
identity endpoint it issued, and the lines it printed. -/
structure TokenCall where
  outcome : TokenOutcome
  newCache : Option String
  requests : Nat
  msgs : List String
deriving DecidableEq

/-- Embedding of `_get_shared_token` (lines 66-112), as a function of the configuration,
the network's behaviour for this call, and the current `_cached_token`.
`result.get("access_token")` followed by Python's `if token:` treats both a
missing key and an empty-string token as absent.  An undecodable 2xx body
raises `json.JSONDecodeError`, caught by the generic `except Exception`
branch. -/
def get_shared_token (cfg : Auth0Config) (net : TokenNet)
    (cache : Option String) : TokenCall :=
  if cfg.NO_AUTH then ⟨.value none, cache, 0, []⟩
  else
    match cache with
    | some t => ⟨.value (some t), some t, 0, []⟩
    | none =>
      if cfg.AUTH0_DOMAIN = "" ∨ cfg.AUTH0_CLIENT_ID = "" ∨
          cfg.AUTH0_CLIENT_SECRET = "" ∨ cfg.AUTH0_AUDIENCE = "" then
        ⟨.exits 1, none, 0,
          ["WARNING: Auth0 env vars not set and NO_AUTH is not true.",
           "  Set NO_AUTH=true for no-auth mode, or provide Auth0 credentials.",
           "  Required: AUTH0_DOMAIN, AUTH0_CLIENT_ID, AUTH0_CLIENT_SECRET, AUTH0_AUDIENCE"]⟩
      else
        match net with
        | .ok (some body) =>
          match body.access_token with
          | some t =>
            if t = "" then
              ⟨.exits 1, none, 1, ["ERROR: No access_token in Auth0 response"]⟩
            else
              ⟨.value (some t), some t, 1,
                ["Auth0 token cached (expires in " ++
                  (match body.expires_in with
                   | some e => toString e
                   | none => "unknown") ++ "s) - shared by all users"]⟩
          | none =>
            ⟨.exits 1, none, 1, ["ERROR: No access_token in Auth0 response"]⟩
        | .ok none =>
          ⟨.exits 1, none, 1, ["ERROR: Auth0 token fetch failed: JSONDecodeError"]⟩
        | .httpError c b =>
          ⟨.exits 1, none, 1,
            ["ERROR: Auth0 token fetch failed: HTTP " ++ toString c,
             "Response: " ++ b]⟩
        | .exc m =>
          ⟨.exits 1, none, 1, ["ERROR: Auth0 token fetch failed: " ++ m]⟩

/-- A sequence of calls to `_get_shared_token` in one process run: the cache
produced by each call is the cache seen by the next. -/
def run_token_calls (cfg : Auth0Config) (nets : List TokenNet)
    (cache : Option String) : List TokenCall :=
  match nets with
  | [] => []
  | n :: rest =>
    let c := get_shared_token cfg n cache
    c :: run_token_calls cfg rest c.newCache

/-- Embedding of `CardFraudUser._get_headers` (lines 188-194) and of the textually identical
`SteadyStateUser._get_headers` (lines 267-273): `none` when the embedded
`_get_shared_token` call exits the process. -/
def get_headers (cfg : Auth0Config) (net : TokenNet) (cache : Option String) :
    Option (List (String × String)) :=
  match (get_shared_token cfg net cache).outcome with
  | .exits _ => none
  | .value none => some [("Content-Type", "application/json")]
  | .value (some t) =>
    some [("Content-Type", "application/json"),
          ("Authorization", "Bearer " ++ t)]

/-! ## Test data pools and request generators (lines 53-171) -/

/-- Line 54. -/
def CURRENCIES : List String := ["USD", "GBP", "EUR", "CAD", "AUD", "JPY"]

/-- Line 55. -/
def COUNTRIES : List String :=
  ["US", "GB", "CA", "DE", "FR", "AU", "JP", "IN", "BR", "MX"]

/-- Line 56. -/
def MERCHANT_CATEGORIES : List String :=
  ["5411", "5999", "5734", "5812", "5541", "5942", "5912"]

/-- Line 57. -/
def TRANSACTION_TYPES : List String := ["PURCHASE", "REFUND", "AUTHORIZATION"]

/-- Line 58. -/
def ENTRY_MODES : List String :=
  ["ECOM", "CHIP", "MAGSTRIPE", "CONTACTLESS", "MANUAL"]

/-- Python's `f"{i:04d}"` for the small naturals used on line 59. -/
def pad4 (i : Nat) : String :=
  String.mk (List.replicate (4 - (toString i).length) '0') ++ toString i

/-- Line 59: `CARD_HASHES = [f"card_hash_{i:04d}" for i in range(100)]`. -/
def CARD_HASHES : List String :=
  (List.range 100).map (fun i => "card_hash_" ++ pad4 i)

/-- Model of `random.choice(l)`: the entropy index `i` selects `l[i % len(l)]`, so any
element of a non-empty pool can be selected and nothing else. -/
def choice {α : Type} (l : List α) (d : α) (i : Nat) : α :=
  l.getD (i % l.length) d

/-- Model of `random.randint(a, b)`: a draw from the inclusive range, driven by the
entropy value `n`. -/
def randint (a b n : Nat) : Nat := a + n % (b - a + 1)

/-- Model of `random.uniform(a, b) = a + (b - a) * random()`, with `random()` modelled
by a rational `u ∈ [0, 1]`. -/
def uniform (a b u : ℚ) : ℚ := a + (b - a) * u

/-- Python's `round(x, 2)`: `x` to the nearest multiple of `1/100`.  (Python
breaks ties to even; the tie direction is irrelevant to the stated bounds.) -/
def round2 (x : ℚ) : ℚ := (round (x * 100) : ℚ) / 100

/-- Python's `str.startswith`, on the characters of the string. -/
def startswith (s p : String) : Bool := p.data.isPrefixOf s.data

/-- The entropy consumed by one generator call: one field per `random.*` or
`uuid` draw in the source. -/
structure Entropy where
  uuidHex : String
  binIdx : Nat
  cardHashIdx : Nat
  amountU : ℚ
  currencyIdx : Nat
  countryIdx : Nat
  merchIdN : Nat
  merchNameN : Nat
  mcatIdx : Nat
  mccIdx : Nat
  cardPresentIdx : Nat
  txnTypeIdx : Nat
  entryIdx : Nat
  ipB1 : Nat
  ipB2 : Nat
  deviceN : Nat
  decisionIdx : Nat

/-- The dict built by `generate_AUTH_request` (lines 128-151). -/
structure AuthRequest where
  transaction_id : String
  card_hash : String
  amount : ℚ
  currency : String
  country_code : String
  merchant_id : String
  merchant_name : String
  merchant_category : String
  merchant_category_code : String
  card_present : Bool
  transaction_type : String
  entry_mode : String
  ip_address : String
  device_id : String
  card_network : String
  card_bin : String
deriving DecidableEq

/-- The dict built by `generate_MONITORING_request` (lines 154-164). -/
structure MonitoringRequest where
  transaction_id : String
  card_hash : String
  amount : ℚ
  currency : String
  country_code : String
  merchant_id : String
  merchant_category_code : String
  decision : String
deriving DecidableEq

/-- Embedding of `generate_transaction_id` (lines 117-118): `f"txn-{uuid.uuid4().hex[:16]}"`. -/
def generate_transaction_id (hex : String) : String :=
  "txn-" ++ (hex.take 16)

/-- Embedding of `generate_card_bin` (lines 121-125). -/
def generate_card_bin (i : Nat) : String :=
  let visa_bins := ["411111", "400000", "450000"]
  let mc_bins := ["555555", "520000", "540000"]
  let amex_bins := ["340000", "370000"]
  choice (visa_bins ++ mc_bins ++ amex_bins) "" i

/-- Embedding of `generate_AUTH_request` (lines 128-151). -/
def generate_AUTH_request (e : Entropy) : AuthRequest :=
  let card_bin := generate_card_bin e.binIdx
  let network :=
    if startswith card_bin "4" then "VISA"
    else if startswith card_bin "5" then "MASTERCARD" else "AMEX"
  { transaction_id := generate_transaction_id e.uuidHex
    card_hash := choice CARD_HASHES "" e.cardHashIdx
    amount := round2 (uniform 10 2000 e.amountU)
    currency := choice CURRENCIES "" e.currencyIdx
    country_code := choice COUNTRIES "" e.countryIdx
    merchant_id := "merch_" ++ toString (randint 1000 9999 e.merchIdN)
    merchant_name := "Test Merchant " ++ toString (randint 1 100 e.merchNameN)
    merchant_category := choice MERCHANT_CATEGORIES "" e.mcatIdx
    merchant_category_code := choice MERCHANT_CATEGORIES "" e.mccIdx
    card_present := choice [true, false] true e.cardPresentIdx
    transaction_type := choice TRANSACTION_TYPES "" e.txnTypeIdx
    entry_mode := choice ENTRY_MODES "" e.entryIdx
    ip_address := "192.168." ++ toString (randint 0 255 e.ipB1) ++ "." ++
      toString (randint 0 255 e.ipB2)
    device_id := "device_" ++ toString (randint 1000 9999 e.deviceN)
    card_network := network
    card_bin := card_bin }

/-- Embedding of `generate_MONITORING_request` (lines 154-164). -/
def generate_MONITORING_request (e : Entropy) : MonitoringRequest :=
  { transaction_id := generate_transaction_id e.uuidHex
    card_hash := choice CARD_HASHES "" e.cardHashIdx
    amount := round2 (uniform 10 500 e.amountU)
    currency := choice CURRENCIES "" e.currencyIdx
    country_code := choice COUNTRIES "" e.countryIdx
    merchant_id := "merch_" ++ toString (randint 1000 9999 e.merchIdN)
    merchant_category_code := choice MERCHANT_CATEGORIES "" e.mccIdx
    decision := choice ["APPROVE", "DECLINE"] "" e.decisionIdx }

/-- Embedding of `generate_velocity_burst_request` (lines 167-171): an AUTH payload whose
card hash and amount are overwritten; `u2` drives the fresh amount draw. -/
def generate_velocity_burst_request (e : Entropy) (u2 : ℚ) : AuthRequest :=
  let req := generate_AUTH_request e
  { req with
    card_hash := "velocity_test_card"
    amount := round2 (uniform 50 200 u2) }

/-! ## Startup hook (`on_test_start`, lines 286-326) -/

/-- Behaviour of the network during the one bulk-load request: a decoded
response, or any exception (connection error, non-2xx, undecodable body). -/
inductive BulkNet where
  | ok (loaded requested : Nat)
  | fail (msg : String)
deriving DecidableEq

/-- Observable effect of `on_test_start`: whether the process exited during
credential resolution, how many identity-endpoint requests and bulk-load
requests were issued, the headers sent on the bulk-load request, whether a
ruleset-load warning was printed, and whether the run proceeded. -/
structure StartReport where
  exited : Bool
  tokenRequests : Nat
  bulkRequests : Nat
  bulkHeaders : List (String × String)
  warned : Bool
  proceeded : Bool
deriving DecidableEq

/-- The tail of `on_test_start` from the `try` block onward (lines 302-326):
one more `_get_shared_token` call, then exactly one bulk-load POST.  A
`SystemExit` raised inside the `try` is not an `Exception`, so it would
propagate; any other failure of the bulk load is caught, printed as a
warning, and the run proceeds. -/
def on_test_start_try (cfg : Auth0Config) (net : TokenNet) (bulk : BulkNet)
    (cache : Option String) (reqs : Nat) : StartReport :=
  let c := get_shared_token cfg net cache
  match c.outcome with
  | .exits _ => ⟨true, reqs + c.requests, 0, [], false, false⟩
  | .value tok =>
    let headers :=
      [("Content-Type", "application/json")] ++
        (match tok with
         | some t => [("Authorization", "Bearer " ++ t)]
         | none => [])
    match bulk with
    | .ok _ _ => ⟨false, reqs + c.requests, 1, headers, false, true⟩
    | .fail _ => ⟨false, reqs + c.requests, 1, headers, true, true⟩

/-- Embedding of `on_test_start` (lines 286-326): print the banner, pre-fetch the shared
token when in JWT mode (a failed fetch exits the process), then issue the
one bulk-load request.  `_cached_token` is `None` at process start. -/
def on_test_start (cfg : Auth0Config) (net : TokenNet) (bulk : BulkNet) :
    StartReport :=
  if cfg.NO_AUTH then
    on_test_start_try cfg net bulk none 0
  else
    let c1 := get_shared_token cfg net none
    match c1.outcome with
    | .exits _ => ⟨true, c1.requests, 0, [], false, false⟩
    | .value _ => on_test_start_try cfg net bulk c1.newCache c1.requests

/-! ## Virtual-user behaviour declarations (lines 176-281)

Each Locust user class contributes a pacing policy (`wait_time`) and the
`@task`-decorated methods it declares or inherits; each task posts to an
endpoint with a generated payload and, in the `catch_response` variants,
classifies the response with `_handle_response`. -/

/-- The payload generator a task calls. -/
inductive GeneratorKind where
  | genAUTH
  | genMONITORING
  | genVelocityBurst
deriving DecidableEq

/-- The response classifier a task applies, when it applies one. -/
inductive ClassifierKind where
  | handleResponseClassifier
deriving DecidableEq

/-- Interpretation of a classifier tag as the embedded classifier. -/
def applyClassifier : ClassifierKind → Nat → Option EvalBody → String →
    ClassResult
  | .handleResponseClassifier => handle_response

/-- A `wait_time` policy: `between(lo, hi)` or `constant(s)`. -/
inductive Pacing where
  | betweenWait (lo hi : ℚ)
  | constantWait (s : ℚ)
deriving DecidableEq

/-- One `@task`: its weight, target endpoint, stats name, payload generator,
and the classifier applied to its response (`none` when the task does not use
`catch_response`). -/
structure TaskDecl where
  weight : Nat
  endpoint : String
  statName : String
  generator : GeneratorKind
  classifier : Option ClassifierKind
deriving DecidableEq

/-- One user class as registered with the Locust scheduler. -/
structure UserBehavior where
  pacing : Pacing
  tasks : List TaskDecl
deriving DecidableEq

/-- Declaration of `CardFraudUser` (lines 176-235): 70% AUTH / 30% MONITORING, both
classified by `_handle_response`. -/
def CardFraudUser : UserBehavior :=
  { pacing := .betweenWait 10 50
    tasks :=
      [⟨7, "/v1/evaluate/auth", "/v1/evaluate/auth", .genAUTH,
        some .handleResponseClassifier⟩,
       ⟨3, "/v1/evaluate/monitoring", "/v1/evaluate/monitoring",
        .genMONITORING, some .handleResponseClassifier⟩] }

/-- Declaration of `HighVolumeUser` (lines 238-240): inherits `CardFraudUser`'s tasks,
changes only the pacing. -/
def HighVolumeUser : UserBehavior :=
  { pacing := .betweenWait 1 5
    tasks := CardFraudUser.tasks }

/-- Declaration of `VelocityTestUser` (lines 243-256): inherits `CardFraudUser`'s tasks and
adds the weight-1 velocity burst task. -/
def VelocityTestUser : UserBehavior :=
  { pacing := .betweenWait 100 200
    tasks := CardFraudUser.tasks ++
      [⟨1, "/v1/evaluate/auth", "/v1/evaluate/auth [velocity]",
        .genVelocityBurst, some .handleResponseClassifier⟩] }

/-- Declaration of `SteadyStateUser` (lines 259-281): constant pacing, one AUTH task posted
without `catch_response` and with no classifier applied. -/
def SteadyStateUser : UserBehavior :=
  { pacing := .constantWait (1/10)
    tasks := [⟨1, "/v1/evaluate/auth", "/v1/evaluate/auth", .genAUTH, none⟩] }

/-- The user classes defined in the file, in source order. -/
def user_behaviors : List UserBehavior :=
  [CardFraudUser, HighVolumeUser, VelocityTestUser, SteadyStateUser]

/-! ## Interleaved credential fetches (single-flight analysis)

Locust runs virtual users as greenlets; `_get_shared_token`'s cache check
and its blocking `urlopen` are separated by a yield point, so concurrent
first calls interleave.  Each caller is a two-phase program: read
`_cached_token` (return it if set, otherwise proceed to fetch), then
complete the fetch (one outbound request, memoize, return).  A schedule
lists which caller steps next. -/

/-- Where one caller is inside `_get_shared_token`. -/
inductive FetchPhase where
  | checking
  | fetching
  | finished
deriving DecidableEq

/-- One caller: its phase and the value it has returned, if any. -/
structure CallerState where
  phase : FetchPhase
  result : Option String
deriving DecidableEq

/-- Shared state: the module-level cache, the number of outbound token
requests issued so far, and all callers. -/
structure FlightState where
  cache : Option String
  requests : Nat
  callers : List CallerState
deriving DecidableEq

/-- Advance caller `i` by one step; the identity endpoint answers every
request with `tok`. -/
def flight_step (tok : String) (s : FlightState) (i : Nat) : FlightState :=
  match s.callers[i]? with
  | none => s
  | some c =>
    match c.phase with
    | .checking =>
      match s.cache with
      | some t => { s with callers := s.callers.set i ⟨.finished, some t⟩ }
      | none => { s with callers := s.callers.set i ⟨.fetching, none⟩ }
    | .fetching =>
      { cache := some tok
        requests := s.requests + 1
        callers := s.callers.set i ⟨.finished, some tok⟩ }
    | .finished => s

/-- Run a schedule of caller steps. -/
def flight_run (tok : String) (sched : List Nat) (s : FlightState) :
    FlightState :=
  match sched with
  | [] => s
  | i :: rest => flight_run tok rest (flight_step tok s i)

/-- Initial state: `n` virtual users, none yet started, empty cache. -/
def flight_init (n : Nat) : FlightState :=
  ⟨none, 0, List.replicate n ⟨.checking, none⟩⟩

/-! ## Theorems -/

/-- C1.  Response classification: a 200 response whose body decodes with
engine mode `"NORMAL"` or absent is a success; a 200 response with engine
mode `"FAIL_OPEN"` or `"DEGRADED"` is a failure annotated with the body's
reported error code; a 200 response whose body does not decode is a failure;
401 is an auth failure; 403 is forbidden; every other status is a generic
failure annotated with the status and the response text truncated to 100
characters. -/
theorem handle_response_classification
    (status : Nat) (body : EvalBody) (text : String) :
    (body.engine_mode = none ∨ body.engine_mode = some "NORMAL" →
      handle_response 200 (some body) text = .success) ∧
    (body.engine_mode = some "FAIL_OPEN" ∨ body.engine_mode = some "DEGRADED" →
      handle_response 200 (some body) text =
        .failure ((body.engine_mode.getD "NORMAL") ++ ": " ++
          (body.engine_error_code.getD "UNKNOWN"))) ∧
    (handle_response 200 none text = .failure "Invalid JSON response") ∧
    (handle_response 401 (some body) text =
      .failure "Auth failed - check JWT_TOKEN or use NO_AUTH=true") ∧
    (handle_response 403 (some body) text =
      .failure "Forbidden - check scopes") ∧
    (status ≠ 200 → status ≠ 401 → status ≠ 403 →
      handle_response status (some body) text =
        .failure ("Status " ++ toString status ++ ": " ++ (text.take 100))) := by
  refine ⟨?_, ?_, ?_, ?_, ?_, ?_⟩
  · rintro (h | h) <;> simp [handle_response, h]
  · rintro (h | h) <;> simp [handle_response, h]
  · simp [handle_response]
  · simp [handle_response]
  · simp [handle_response]
  · intro h1 h2 h3
    simp [handle_response, h1, h2, h3]

/-- Witness for C1 at concrete inputs: a nominal 200 body is a success, a
degraded 200 body fails with its error code, and a 503 fails generically. -/
theorem handle_response_classification_witness :
    handle_response 200 (some ⟨some "NORMAL", none⟩) "" = .success ∧
    handle_response 200 (some ⟨some "DEGRADED", some "E42"⟩) "" =
      .failure "DEGRADED: E42" ∧
    handle_response 503 (some ⟨none, none⟩) "oops" =
      .failure "Status 503: oops" := by
  refine ⟨?_, ?_, ?_⟩
  · exact (handle_response_classification 200 ⟨some "NORMAL", none⟩ "").1
      (Or.inr rfl)
  · exact (handle_response_classification 200 ⟨some "DEGRADED", some "E42"⟩ "").2.1
      (Or.inr rfl)
  · exact (handle_response_classification 503 ⟨none, none⟩ "oops").2.2.2.2.2
      (by decide) (by decide) (by decide)

/-- Helper: with auth enabled, a call that finds the cache populated returns
the cached token, touches nothing, and issues no request. -/
lemma get_shared_token_cached (cfg : Auth0Config) (net : TokenNet) (t : String)
    (hna : cfg.NO_AUTH = false) :
    get_shared_token cfg net (some t) = ⟨.value (some t), some t, 0, []⟩ := by
  simp [get_shared_token, hna]

/-- Helper: with auth enabled, a call that returns a token has memoized that
same token. -/
lemma get_shared_token_value_newCache (cfg : Auth0Config) (net : TokenNet)
    (cache : Option String) (t : String) (hna : cfg.NO_AUTH = false)
    (h : (get_shared_token cfg net cache).outcome = .value (some t)) :
    (get_shared_token cfg net cache).newCache = some t := by
  cases cache with
  | some u =>
    rw [get_shared_token_cached cfg net u hna] at h ⊢
    simp at h
    simp [h]
  | none =>
    simp only [get_shared_token, hna, Bool.false_eq_true, if_false] at h ⊢
    split at h
    · simp at h
    · cases net with
      | ok body =>
        cases body with
        | some b =>
          cases hb : b.access_token with
          | some s =>
            simp only [hb] at h ⊢
            split at h
            · simp at h
            · simp_all
          | none => simp [hb] at h
        | none => simp at h
      | httpError c b => simp at h
      | exc m => simp at h

/-- Helper: with auth enabled, every call made while the cache holds `t`
returns `t`, issues no request, and leaves the cache at `t`. -/
lemma run_token_calls_cached (cfg : Auth0Config) (t : String)
    (hna : cfg.NO_AUTH = false) (nets : List TokenNet) :
    ∀ c ∈ run_token_calls cfg nets (some t),
      c = ⟨.value (some t), some t, 0, []⟩ := by
  induction nets with
  | nil => simp [run_token_calls]
  | cons n rest ih =>
    intro c hc
    rw [run_token_calls] at hc
    rw [get_shared_token_cached cfg n t hna] at hc
    rcases List.mem_cons.mp hc with h | h
    · exact h
    · exact ih c h

/-- C2.  With auth enabled, once a call to the credential provider has
succeeded and memoized a token, that token is exactly the returned one, and
every subsequent call in the run returns the identical cached value, issues
no network request, and leaves the cache unchanged. -/
theorem get_shared_token_idempotent (cfg : Auth0Config) (net0 : TokenNet)
    (cache0 : Option String) (t : String) (hna : cfg.NO_AUTH = false)
    (hsucc : (get_shared_token cfg net0 cache0).outcome = .value (some t)) :
    (get_shared_token cfg net0 cache0).newCache = some t ∧
    ∀ nets : List TokenNet,
      ∀ c ∈ run_token_calls cfg nets (get_shared_token cfg net0 cache0).newCache,
        c.outcome = .value (some t) ∧ c.requests = 0 ∧ c.newCache = some t := by
  have hc := get_shared_token_value_newCache cfg net0 cache0 t hna hsucc
  refine ⟨hc, ?_⟩
  intro nets c hmem
  rw [hc] at hmem
  rw [run_token_calls_cached cfg t hna nets c hmem]
  exact ⟨rfl, rfl, rfl⟩

/-- Witness for C2: after a successful fetch of `"tok123"` with full Auth0
configuration, a later call — even one whose network would fail — returns the
cached `"tok123"` with zero requests. -/
theorem get_shared_token_idempotent_witness :
    (get_shared_token ⟨false, "dom", "id", "sec", "aud"⟩
        (.ok (some ⟨some "tok123", some 3600⟩)) none).outcome =
      .value (some "tok123") ∧
    (get_shared_token ⟨false, "dom", "id", "sec", "aud"⟩ (.exc "boom")
        (some "tok123")).outcome = .value (some "tok123") ∧
    (get_shared_token ⟨false, "dom", "id", "sec", "aud"⟩ (.exc "boom")
        (some "tok123")).requests = 0 := by
  have h := (get_shared_token_idempotent ⟨false, "dom", "id", "sec", "aud"⟩
    (.ok (some ⟨some "tok123", some 3600⟩)) none "tok123" rfl (by decide)).2
    [.exc "boom"]
    (get_shared_token ⟨false, "dom", "id", "sec", "aud"⟩ (.exc "boom")
      (some "tok123"))
    (by decide)
  exact ⟨by decide, h.1, h.2.1⟩

/-- C3.  With auth disabled, every call to the credential provider returns
`none` without touching the network (whatever the Auth0 variables hold), the
virtual users' request headers carry no `Authorization` entry, and the
startup hook issues no identity request and sends the bulk-load request
without an `Authorization` header. -/
theorem no_auth_no_credentials (cfg : Auth0Config) (net : TokenNet)
    (cache : Option String) (bulk : BulkNet) (h : cfg.NO_AUTH = true) :
    get_shared_token cfg net cache = ⟨.value none, cache, 0, []⟩ ∧
    get_headers cfg net cache = some [("Content-Type", "application/json")] ∧
    (on_test_start cfg net bulk).tokenRequests = 0 ∧
    (∀ p ∈ (on_test_start cfg net bulk).bulkHeaders, p.1 ≠ "Authorization") := by
  have h1 : ∀ c : Option String,
      get_shared_token cfg net c = ⟨.value none, c, 0, []⟩ := by
    intro c
    simp [get_shared_token, h]
  have h2 : on_test_start cfg net bulk =
      on_test_start_try cfg net bulk none 0 := by
    simp [on_test_start, h]
  refine ⟨h1 cache, ?_, ?_, ?_⟩
  · simp [get_headers, h1 cache]
  · rw [h2, on_test_start_try, h1 none]
    cases bulk <;> rfl
  · rw [h2, on_test_start_try, h1 none]
    cases bulk <;> simp

/-- Witness for C3: with `NO_AUTH=true` and all Auth0 variables empty, the
provider yields `none` with zero requests and the headers are exactly the
content-type entry. -/
theorem no_auth_no_credentials_witness :
    get_shared_token ⟨true, "", "", "", ""⟩ (.exc "unreachable") none =
      ⟨.value none, none, 0, []⟩ ∧
    get_headers ⟨true, "", "", "", ""⟩ (.exc "unreachable") none =
      some [("Content-Type", "application/json")] ∧
    (on_test_start ⟨true, "", "", "", ""⟩ (.exc "unreachable")
      (.ok 2 2)).tokenRequests = 0 := by
  have h := no_auth_no_credentials ⟨true, "", "", "", ""⟩ (.exc "unreachable")
    none (.ok 2 2) rfl
  exact ⟨h.1, h.2.1, h.2.2.1⟩

/-- C4.  With auth required and an empty cache, each failure mode — a missing
configuration variable, an HTTP error or other exception from the identity
endpoint, an undecodable body, or a body with no `access_token` — makes the
call exit the process with status 1 (non-zero) after printing a
diagnostic. -/
theorem get_shared_token_fail_fast (cfg : Auth0Config) (net : TokenNet)
    (hna : cfg.NO_AUTH = false)
    (hfail : cfg.AUTH0_DOMAIN = "" ∨ cfg.AUTH0_CLIENT_ID = "" ∨
      cfg.AUTH0_CLIENT_SECRET = "" ∨ cfg.AUTH0_AUDIENCE = "" ∨
      (∃ c b, net = .httpError c b) ∨ (∃ m, net = .exc m) ∨
      net = .ok none ∨
      (∃ body, net = .ok (some body) ∧ body.access_token = none)) :
    (get_shared_token cfg net none).outcome = .exits 1 ∧
    (get_shared_token cfg net none).msgs ≠ [] ∧ (1 : Nat) ≠ 0 := by
  by_cases hm : cfg.AUTH0_DOMAIN = "" ∨ cfg.AUTH0_CLIENT_ID = "" ∨
      cfg.AUTH0_CLIENT_SECRET = "" ∨ cfg.AUTH0_AUDIENCE = ""
  · simp [get_shared_token, hna, hm]
  · rcases hfail with h | h | h | h | ⟨c, b, rfl⟩ | ⟨m, rfl⟩ | rfl |
      ⟨body, rfl, hb⟩
    · exact absurd (Or.inl h) hm
    · exact absurd (Or.inr (Or.inl h)) hm
    · exact absurd (Or.inr (Or.inr (Or.inl h))) hm
    · exact absurd (Or.inr (Or.inr (Or.inr h))) hm
    · simp [get_shared_token, hna, hm]
    · simp [get_shared_token, hna, hm]
    · simp [get_shared_token, hna, hm]
    · simp [get_shared_token, hna, hm, hb]

/-- Witness for C4: with `AUTH0_DOMAIN` empty the call exits with status 1,
and likewise for a body carrying no `access_token`. -/
theorem get_shared_token_fail_fast_witness :
    (get_shared_token ⟨false, "", "id", "sec", "aud"⟩
      (.ok (some ⟨some "tok", none⟩)) none).outcome = .exits 1 ∧
    (get_shared_token ⟨false, "dom", "id", "sec", "aud"⟩
      (.ok (some ⟨none, none⟩)) none).outcome = .exits 1 := by
  refine ⟨?_, ?_⟩
  · exact (get_shared_token_fail_fast ⟨false, "", "id", "sec", "aud"⟩
      (.ok (some ⟨some "tok", none⟩)) rfl (Or.inl rfl)).1
  · exact (get_shared_token_fail_fast ⟨false, "dom", "id", "sec", "aud"⟩
      (.ok (some ⟨none, none⟩)) rfl
      (Or.inr (Or.inr (Or.inr (Or.inr (Or.inr (Or.inr (Or.inr
        ⟨⟨none, none⟩, rfl, rfl⟩)))))))).1

/-- C9.  When startup credential resolution does not exit (auth disabled, or
the eager fetch succeeds), the startup hook issues exactly one bulk-load
request and the run proceeds; a failing bulk load only sets the warning. -/
theorem on_test_start_bulk_once (cfg : Auth0Config) (net : TokenNet)
    (bulk : BulkNet)
    (h : cfg.NO_AUTH = true ∨
      ∃ t, (get_shared_token cfg net none).outcome = .value (some t)) :
    (on_test_start cfg net bulk).exited = false ∧
    (on_test_start cfg net bulk).bulkRequests = 1 ∧
    (on_test_start cfg net bulk).proceeded = true ∧
    ((∃ m, bulk = .fail m) → (on_test_start cfg net bulk).warned = true) := by
  by_cases hna : cfg.NO_AUTH = true
  · have h1 : ∀ c : Option String,
        get_shared_token cfg net c = ⟨.value none, c, 0, []⟩ := by
      intro c
      simp [get_shared_token, hna]
    have h2 : on_test_start cfg net bulk =
        on_test_start_try cfg net bulk none 0 := by
      simp [on_test_start, hna]
    rw [h2, on_test_start_try, h1 none]
    cases bulk with
    | ok l r => exact ⟨rfl, rfl, rfl, by rintro ⟨m, hm⟩; cases hm⟩
    | fail m => exact ⟨rfl, rfl, rfl, fun _ => rfl⟩
  · have hna' : cfg.NO_AUTH = false := by
      cases hb : cfg.NO_AUTH
      · rfl
      · exact absurd hb hna
    rcases h with h | ⟨t, ht⟩
    · exact absurd h hna
    · have hc := get_shared_token_value_newCache cfg net none t hna' ht
      have h2 : on_test_start cfg net bulk =
          on_test_start_try cfg net bulk
            (get_shared_token cfg net none).newCache
            (get_shared_token cfg net none).requests := by
        rw [on_test_start, if_neg (by simp [hna'])]
        simp only [ht]
      rw [h2, hc, on_test_start_try, get_shared_token_cached cfg net t hna']
      cases bulk with
      | ok l r => exact ⟨rfl, rfl, rfl, by rintro ⟨m, hm⟩; cases hm⟩
      | fail m => exact ⟨rfl, rfl, rfl, fun _ => rfl⟩

/-- Witness for C9: in no-auth mode with a failing bulk load, the hook still
issues one bulk request, warns, and proceeds. -/
theorem on_test_start_bulk_once_witness :
    (on_test_start ⟨true, "", "", "", ""⟩ (.exc "x")
      (.fail "connection refused")).bulkRequests = 1 ∧
    (on_test_start ⟨true, "", "", "", ""⟩ (.exc "x")
      (.fail "connection refused")).proceeded = true ∧
    (on_test_start ⟨true, "", "", "", ""⟩ (.exc "x")
      (.fail "connection refused")).warned = true := by
  have h := on_test_start_bulk_once ⟨true, "", "", "", ""⟩ (.exc "x")
    (.fail "connection refused") (Or.inl rfl)
  exact ⟨h.2.1, h.2.2.1, h.2.2.2 ⟨"connection refused", rfl⟩⟩

/-- Helper: `random.choice` over a non-empty pool yields an element of the
pool. -/
lemma choice_mem {α : Type} (l : List α) (d : α) (i : Nat) (h : l ≠ []) :
    choice l d i ∈ l := by
  have hlen : 0 < l.length := List.length_pos.mpr h
  have hi : i % l.length < l.length := Nat.mod_lt _ hlen
  rw [choice, List.getD_eq_getElem l d hi]
  exact List.getElem_mem hi

/-- Helper: `random.randint(a, b)` stays in the inclusive range. -/
lemma randint_bounds (a b n : Nat) (h : a ≤ b) :
    a ≤ randint a b n ∧ randint a b n ≤ b := by
  refine ⟨Nat.le_add_right a _, ?_⟩
  have hm : n % (b - a + 1) < b - a + 1 := Nat.mod_lt _ (Nat.succ_pos _)
  rw [randint]
  omega

/-- Helper: `random.uniform(a, b)` stays in `[a, b]`. -/
lemma uniform_bounds (a b u : ℚ) (hab : a ≤ b) (h0 : 0 ≤ u) (h1 : u ≤ 1) :
    a ≤ uniform a b u ∧ uniform a b u ≤ b := by
  rw [uniform]
  constructor
  · nlinarith
  · nlinarith

/-- Helper: rounding to two decimals keeps a value between integer bounds. -/
lemma round2_bounds (lo hi : ℤ) (x : ℚ) (h1 : (lo : ℚ) ≤ x)
    (h2 : x ≤ (hi : ℚ)) : (lo : ℚ) ≤ round2 x ∧ round2 x ≤ (hi : ℚ) := by
  have hl : (lo * 100 : ℤ) ≤ round (x * 100) := by
    rw [round_eq]
    apply Int.le_floor.mpr
    push_cast
    linarith
  have hu : round (x * 100) ≤ hi * 100 := by
    rw [round_eq]
    have h3 : (⌊x * 100 + 1 / 2⌋ : ℤ) < hi * 100 + 1 := by
      apply Int.floor_lt.mpr
      push_cast
      linarith
    omega
  constructor
  · rw [round2, le_div_iff₀ (by norm_num : (0:ℚ) < 100)]
    calc (lo : ℚ) * 100 = ((lo * 100 : ℤ) : ℚ) := by push_cast; ring
    _ ≤ (round (x * 100) : ℚ) := by exact_mod_cast hl
  · rw [round2, div_le_iff₀ (by norm_num : (0:ℚ) < 100)]
    calc (round (x * 100) : ℚ) ≤ ((hi * 100 : ℤ) : ℚ) := by exact_mod_cast hu
    _ = (hi : ℚ) * 100 := by push_cast; ring

/-- Helper: a value rounded to two decimals is an integer number of
hundredths. -/
lemma round2_grid (x : ℚ) : ∃ n : ℤ, round2 x * 100 = (n : ℚ) := by
  refine ⟨round (x * 100), ?_⟩
  rw [round2]
  field_simp

/-- C6.  The generated card bin is one of the eight pooled bins, and the
network label is derived from the bin's first digit: `"4"` gives `"VISA"`,
`"5"` gives `"MASTERCARD"`, anything else gives `"AMEX"`. -/
theorem auth_card_network_consistent (e : Entropy) :
    (generate_AUTH_request e).card_bin ∈
      (["411111", "400000", "450000", "555555", "520000", "540000",
        "340000", "370000"] : List String) ∧
    (startswith (generate_AUTH_request e).card_bin "4" = true →
      (generate_AUTH_request e).card_network = "VISA") ∧
    (startswith (generate_AUTH_request e).card_bin "5" = true →
      (generate_AUTH_request e).card_network = "MASTERCARD") ∧
    (startswith (generate_AUTH_request e).card_bin "4" = false →
      startswith (generate_AUTH_request e).card_bin "5" = false →
      (generate_AUTH_request e).card_network = "AMEX") := by
  have hbin : (generate_AUTH_request e).card_bin = generate_card_bin e.binIdx :=
    rfl
  have hnet : (generate_AUTH_request e).card_network =
      (if startswith (generate_card_bin e.binIdx) "4" then "VISA"
       else if startswith (generate_card_bin e.binIdx) "5" then "MASTERCARD"
       else "AMEX") := rfl
  have hmem : generate_card_bin e.binIdx ∈
      (["411111", "400000", "450000", "555555", "520000", "540000",
        "340000", "370000"] : List String) :=
    choice_mem
      (["411111", "400000", "450000"] ++ ["555555", "520000", "540000"] ++
        ["340000", "370000"]) "" e.binIdx (by decide)
  refine ⟨by rw [hbin]; exact hmem, ?_⟩
  rw [hbin, hnet]
  simp only [List.mem_cons, List.not_mem_nil, or_false] at hmem
  rcases hmem with h | h | h | h | h | h | h | h <;> rw [h] <;> decide

/-- Witness for C6: with bin index 0 the bin is `"411111"` and the network,
by the theorem's first-digit rule, is `"VISA"`. -/
theorem auth_card_network_consistent_witness :
    (generate_AUTH_request
      ⟨"0123456789abcdef01", 0, 0, 0, 0, 0, 0, 0, 0, 0, 0, 0, 0, 0, 0, 0, 0⟩
      ).card_network = "VISA" :=
  (auth_card_network_consistent
    ⟨"0123456789abcdef01", 0, 0, 0, 0, 0, 0, 0, 0, 0, 0, 0, 0, 0, 0, 0, 0⟩
    ).2.1 (by decide)

/-- C7.  Every pooled field of the three generators' payloads is drawn from
its declared pool; the bounded fields stay in their ranges; and each amount
is a whole number of hundredths inside the generator's documented bounds
(AUTH 10-2000, MONITORING 10-500, velocity burst 50-200). -/
theorem generated_payload_bounds (e : Entropy) (u2 : ℚ)
    (h0 : 0 ≤ e.amountU) (h1 : e.amountU ≤ 1) (g0 : 0 ≤ u2) (g1 : u2 ≤ 1) :
    ((10 ≤ (generate_AUTH_request e).amount ∧
        (generate_AUTH_request e).amount ≤ 2000 ∧
        ∃ n : ℤ, (generate_AUTH_request e).amount * 100 = (n : ℚ)) ∧
      (generate_AUTH_request e).card_hash ∈ CARD_HASHES ∧
      (generate_AUTH_request e).currency ∈ CURRENCIES ∧
      (generate_AUTH_request e).country_code ∈ COUNTRIES ∧
      (generate_AUTH_request e).merchant_category ∈ MERCHANT_CATEGORIES ∧
      (generate_AUTH_request e).merchant_category_code ∈ MERCHANT_CATEGORIES ∧
      (generate_AUTH_request e).transaction_type ∈ TRANSACTION_TYPES ∧
      (generate_AUTH_request e).entry_mode ∈ ENTRY_MODES ∧
      (∃ n, (generate_AUTH_request e).merchant_id = "merch_" ++ toString n ∧
        1000 ≤ n ∧ n ≤ 9999) ∧
      (∃ n, (generate_AUTH_request e).merchant_name =
          "Test Merchant " ++ toString n ∧ 1 ≤ n ∧ n ≤ 100) ∧
      (∃ a b, (generate_AUTH_request e).ip_address =
          "192.168." ++ toString a ++ "." ++ toString b ∧ a ≤ 255 ∧ b ≤ 255) ∧
      (∃ n, (generate_AUTH_request e).device_id = "device_" ++ toString n ∧
        1000 ≤ n ∧ n ≤ 9999)) ∧
    ((10 ≤ (generate_MONITORING_request e).amount ∧
        (generate_MONITORING_request e).amount ≤ 500 ∧
        ∃ n : ℤ, (generate_MONITORING_request e).amount * 100 = (n : ℚ)) ∧
      (generate_MONITORING_request e).card_hash ∈ CARD_HASHES ∧
      (generate_MONITORING_request e).currency ∈ CURRENCIES ∧
      (generate_MONITORING_request e).country_code ∈ COUNTRIES ∧
      (generate_MONITORING_request e).merchant_category_code ∈
        MERCHANT_CATEGORIES ∧
      (generate_MONITORING_request e).decision ∈
        (["APPROVE", "DECLINE"] : List String) ∧
      (∃ n, (generate_MONITORING_request e).merchant_id =
          "merch_" ++ toString n ∧ 1000 ≤ n ∧ n ≤ 9999)) ∧
    ((50 ≤ (generate_velocity_burst_request e u2).amount ∧
        (generate_velocity_burst_request e u2).amount ≤ 200 ∧
        ∃ n : ℤ,
          (generate_velocity_burst_request e u2).amount * 100 = (n : ℚ)) ∧
      (generate_velocity_burst_request e u2).card_hash =
        "velocity_test_card" ∧
      (generate_velocity_burst_request e u2).currency ∈ CURRENCIES ∧
      (generate_velocity_burst_request e u2).country_code ∈ COUNTRIES) := by
  have hAu := uniform_bounds 10 2000 e.amountU (by norm_num) h0 h1
  have hA := round2_bounds 10 2000 (uniform 10 2000 e.amountU)
    (by exact_mod_cast hAu.1) (by exact_mod_cast hAu.2)
  have hMu := uniform_bounds 10 500 e.amountU (by norm_num) h0 h1
  have hM := round2_bounds 10 500 (uniform 10 500 e.amountU)
    (by exact_mod_cast hMu.1) (by exact_mod_cast hMu.2)
  have hVu := uniform_bounds 50 200 u2 (by norm_num) g0 g1
  have hV := round2_bounds 50 200 (uniform 50 200 u2)
    (by exact_mod_cast hVu.1) (by exact_mod_cast hVu.2)
  refine ⟨⟨⟨by exact_mod_cast hA.1, by exact_mod_cast hA.2, round2_grid _⟩,
    choice_mem CARD_HASHES "" e.cardHashIdx (by decide),
    choice_mem CURRENCIES "" e.currencyIdx (by decide),
    choice_mem COUNTRIES "" e.countryIdx (by decide),
    choice_mem MERCHANT_CATEGORIES "" e.mcatIdx (by decide),
    choice_mem MERCHANT_CATEGORIES "" e.mccIdx (by decide),
    choice_mem TRANSACTION_TYPES "" e.txnTypeIdx (by decide),
    choice_mem ENTRY_MODES "" e.entryIdx (by decide),
    ⟨randint 1000 9999 e.merchIdN, rfl,
      (randint_bounds 1000 9999 e.merchIdN (by norm_num)).1,
      (randint_bounds 1000 9999 e.merchIdN (by norm_num)).2⟩,
    ⟨randint 1 100 e.merchNameN, rfl,
      (randint_bounds 1 100 e.merchNameN (by norm_num)).1,
      (randint_bounds 1 100 e.merchNameN (by norm_num)).2⟩,
    ⟨randint 0 255 e.ipB1, randint 0 255 e.ipB2, rfl,
      (randint_bounds 0 255 e.ipB1 (by norm_num)).2,
      (randint_bounds 0 255 e.ipB2 (by norm_num)).2⟩,
    ⟨randint 1000 9999 e.deviceN, rfl,
      (randint_bounds 1000 9999 e.deviceN (by norm_num)).1,
      (randint_bounds 1000 9999 e.deviceN (by norm_num)).2⟩⟩,
    ⟨⟨by exact_mod_cast hM.1, by exact_mod_cast hM.2, round2_grid _⟩,
    choice_mem CARD_HASHES "" e.cardHashIdx (by decide),
    choice_mem CURRENCIES "" e.currencyIdx (by decide),
    choice_mem COUNTRIES "" e.countryIdx (by decide),
    choice_mem MERCHANT_CATEGORIES "" e.mccIdx (by decide),
    choice_mem ["APPROVE", "DECLINE"] "" e.decisionIdx (by decide),
    ⟨randint 1000 9999 e.merchIdN, rfl,
      (randint_bounds 1000 9999 e.merchIdN (by norm_num)).1,
      (randint_bounds 1000 9999 e.merchIdN (by norm_num)).2⟩⟩,
    ⟨⟨by exact_mod_cast hV.1, by exact_mod_cast hV.2, round2_grid _⟩,
    rfl,
    choice_mem CURRENCIES "" e.currencyIdx (by decide),
    choice_mem COUNTRIES "" e.countryIdx (by decide)⟩⟩

/-- Witness for C7 at the midpoint entropy draw: the AUTH amount, the
MONITORING amount, and the velocity amount land inside their documented
bounds. -/
theorem generated_payload_bounds_witness :
    (0:ℚ) ≤ 1/2 ∧ (1/2:ℚ) ≤ 1 ∧
    10 ≤ (generate_AUTH_request
      ⟨"0123456789abcdef01", 0, 0, 1/2, 0, 0, 0, 0, 0, 0, 0, 0, 0, 0, 0, 0, 0⟩
      ).amount ∧
    (generate_AUTH_request
      ⟨"0123456789abcdef01", 0, 0, 1/2, 0, 0, 0, 0, 0, 0, 0, 0, 0, 0, 0, 0, 0⟩
      ).amount ≤ 2000 ∧
    50 ≤ (generate_velocity_burst_request
      ⟨"0123456789abcdef01", 0, 0, 1/2, 0, 0, 0, 0, 0, 0, 0, 0, 0, 0, 0, 0, 0⟩
      (1/2)).amount := by
  have h := generated_payload_bounds
    ⟨"0123456789abcdef01", 0, 0, 1/2, 0, 0, 0, 0, 0, 0, 0, 0, 0, 0, 0, 0, 0⟩
    (1/2) (by norm_num) (by norm_num) (by norm_num) (by norm_num)
  exact ⟨by norm_num, by norm_num, h.1.1.1, h.1.1.2.1, h.2.2.1.1⟩

/-- Invariant of the interleaved-fetch system: the cache only ever holds the
endpoint's token, and every returned result is that token. -/
def FlightInv (tok : String) (s : FlightState) : Prop :=
  (s.cache = none ∨ s.cache = some tok) ∧
  ∀ c ∈ s.callers, c.result = none ∨ c.result = some tok

/-- Helper: one step of any caller preserves the invariant. -/
lemma flight_step_inv (tok : String) (s : FlightState) (i : Nat)
    (h : FlightInv tok s) : FlightInv tok (flight_step tok s i) := by
  obtain ⟨hc, hr⟩ := h
  cases hci : s.callers[i]? with
  | none =>
    simp only [flight_step, hci]
    exact ⟨hc, hr⟩
  | some c =>
    obtain ⟨phase, result⟩ := c
    cases phase with
    | checking =>
      cases hcc : s.cache with
      | none =>
        simp only [flight_step, hci, hcc]
        refine ⟨Or.inl rfl, ?_⟩
        intro d hd
        rcases List.mem_or_eq_of_mem_set hd with h' | h'
        · exact hr d h'
        · subst h'
          exact Or.inl rfl
      | some t =>
        have ht : t = tok := by
          rcases hc with h' | h'
          · rw [hcc] at h'
            cases h'
          · rw [hcc] at h'
            exact Option.some.inj h'
        simp only [flight_step, hci, hcc]
        refine ⟨Or.inr (by rw [ht]), ?_⟩
        intro d hd
        rcases List.mem_or_eq_of_mem_set hd with h' | h'
        · exact hr d h'
        · subst h'
          exact Or.inr (by rw [ht])
    | fetching =>
      simp only [flight_step, hci]
      refine ⟨Or.inr rfl, ?_⟩
      intro d hd
      rcases List.mem_or_eq_of_mem_set hd with h' | h'
      · exact hr d h'
      · subst h'
        exact Or.inr rfl
    | finished =>
      simp only [flight_step, hci]
      exact ⟨hc, hr⟩

/-- Helper: running any schedule preserves the invariant. -/
lemma flight_run_inv (tok : String) (sched : List Nat) :
    ∀ s : FlightState, FlightInv tok s →
      FlightInv tok (flight_run tok sched s) := by
  induction sched with
  | nil => intro s h; exact h
  | cons i rest ih =>
    intro s h
    exact ih (flight_step tok s i) (flight_step_inv tok s i h)

/-- Counterexample to C5 as stated: in the interleaving where both virtual
users pass the cache check before either fetch completes (schedule
`[0, 1, 0, 1]` from an empty cache), both callers receive `"tok123"` but TWO
outbound token requests are issued, not exactly one.  The unguarded
check-then-fetch in `_get_shared_token` is single-flight only when the first
call completes before any other call checks the cache. -/
theorem single_flight_cex :
    flight_run "tok123" [0, 1, 0, 1] (flight_init 2) =
      ⟨some "tok123", 2,
        [⟨.finished, some "tok123"⟩, ⟨.finished, some "tok123"⟩]⟩ ∧
    (2 : Nat) ≠ 1 := by decide

/-- C5 (amended).  Under every interleaving of concurrent first calls each
caller that returns receives the endpoint's token and the cache never holds
anything else; and when the first fetch completes before the second caller
checks the cache (serialized schedule `[0, 0, 1]`), exactly one outbound
token request is issued and both callers receive the token. -/
theorem single_flight_amended (tok : String) (sched : List Nat) (n : Nat) :
    ((flight_run tok sched (flight_init n)).cache = none ∨
      (flight_run tok sched (flight_init n)).cache = some tok) ∧
    (∀ c ∈ (flight_run tok sched (flight_init n)).callers,
      c.result = none ∨ c.result = some tok) ∧
    flight_run tok [0, 0, 1] (flight_init 2) =
      ⟨some tok, 1, [⟨.finished, some tok⟩, ⟨.finished, some tok⟩]⟩ := by
  have h := flight_run_inv tok sched (flight_init n)
    ⟨Or.inl rfl, by
      intro c hc
      rw [List.eq_of_mem_replicate hc]
      exact Or.inl rfl⟩
  exact ⟨h.1, h.2, rfl⟩

/-- Witness for C5 (amended), applied to the racing schedule: the first
caller's final state is a result of `"tok123"`. -/
theorem single_flight_amended_witness :
    (⟨FetchPhase.finished, some "tok123"⟩ : CallerState).result = none ∨
    (⟨FetchPhase.finished, some "tok123"⟩ : CallerState).result =
      some "tok123" :=
  (single_flight_amended "tok123" [0, 1, 0, 1] 2).2.1
    ⟨FetchPhase.finished, some "tok123"⟩ (by decide)

/-- Counterexample to C8 as stated: it is not true that every variant applies
a response classifier to each of its tasks — `SteadyStateUser` is a defined
variant whose single task posts without `catch_response` and classifies
nothing. -/
theorem behavior_classifier_cex :
    SteadyStateUser ∈ user_behaviors ∧
    ¬ (∀ b ∈ user_behaviors, ∀ t ∈ b.tasks, t.classifier.isSome = true) :=
  ⟨by simp [user_behaviors], by decide⟩

/-- C8 (amended).  Exactly four behaviour variants are defined; they differ
in pacing and task mix; every task declares its endpoint and payload
generator; the three `CardFraudUser`-derived variants apply the shared
`_handle_response` classifier to every task, while the steady-state variant's
task applies none. -/
theorem behavior_variants_amended :
    user_behaviors.length = 4 ∧
    CardFraudUser.pacing = .betweenWait 10 50 ∧
    HighVolumeUser.pacing = .betweenWait 1 5 ∧
    VelocityTestUser.pacing = .betweenWait 100 200 ∧
    SteadyStateUser.pacing = .constantWait (1/10) ∧
    HighVolumeUser.tasks = CardFraudUser.tasks ∧
    VelocityTestUser.tasks = CardFraudUser.tasks ++
      [⟨1, "/v1/evaluate/auth", "/v1/evaluate/auth [velocity]",
        .genVelocityBurst, some .handleResponseClassifier⟩] ∧
    (∀ b ∈ [CardFraudUser, HighVolumeUser, VelocityTestUser],
      ∀ t ∈ b.tasks, t.classifier = some .handleResponseClassifier) ∧
    (∀ t ∈ SteadyStateUser.tasks, t.classifier = none) ∧
    (∀ b ∈ user_behaviors, ∀ t ∈ b.tasks,
      t.endpoint = "/v1/evaluate/auth" ∨
        t.endpoint = "/v1/evaluate/monitoring") ∧
    applyClassifier .handleResponseClassifier = handle_response := by
  refine ⟨rfl, rfl, rfl, rfl, rfl, rfl, rfl, by decide, by decide, by decide,
    rfl⟩

/-- Witness for C8 (amended): the steady-state variant's concrete task has no
classifier, via the theorem at that task. -/
theorem behavior_variants_amended_witness :
    (⟨1, "/v1/evaluate/auth", "/v1/evaluate/auth", GeneratorKind.genAUTH,
      none⟩ : TaskDecl).classifier = none :=
  behavior_variants_amended.2.2.2.2.2.2.2.2.1
    ⟨1, "/v1/evaluate/auth", "/v1/evaluate/auth", GeneratorKind.genAUTH, none⟩
    (by decide)

/-- C10.  Auth is disabled iff the `NO_AUTH` environment value, lowercased,
is exactly `"true"`, `"1"` or `"yes"`; unset or any other value leaves the
auth flow enabled. -/
theorem NO_AUTH_iff (v : Option String) :
    NO_AUTH_of_env v = true ↔
      ∃ s, v = some s ∧
        (lowerAscii s = "true" ∨ lowerAscii s = "1" ∨ lowerAscii s = "yes") := by
  cases v with
  | none =>
    constructor
    · intro h
      exact absurd h (by decide)
    · rintro ⟨s, hs, _⟩
      exact absurd hs (by simp)
  | some s =>
    simp only [NO_AUTH_of_env, Option.getD_some, List.mem_cons,
      List.not_mem_nil, or_false, decide_eq_true_eq]
    constructor
    · intro h
      exact ⟨s, rfl, h⟩
    · rintro ⟨t, ht, h⟩
      cases Option.some.inj ht
      exact h

/-- Witness for C10: `NO_AUTH=TRUE` disables auth, and the theorem's
backward direction applies at that concrete value. -/
theorem NO_AUTH_iff_witness :
    NO_AUTH_of_env (some "TRUE") = true ∧
    NO_AUTH_of_env none = false ∧
    NO_AUTH_of_env (some "TRUE ") = false ∧
    NO_AUTH_of_env (some "on") = false :=
  ⟨(NO_AUTH_iff (some "TRUE")).mpr ⟨"TRUE", rfl, Or.inl (by decide)⟩,
   by decide, by decide, by decide⟩
